import Mathlib

/- Verification of a JavaScript/TypeScript Game Boy emulator core.
   The definitions below are shallow embeddings of the source files:
   cpu.js, mmu.js, ppu.js, gameboy.js and the cartridge/input files of the
   plain-JS emulator, and instructions.ts, opcodes.ts, memory.ts, rom.ts of
   the TypeScript emulator.  Byte memories are modeled as total functions
   from addresses to Nat; a JavaScript typed-array cell always holds the
   stored value masked to 8 bits, and out-of-range indexing yields
   undefined, which the sources turn into 0xFF through the pattern
   rom[a] || 0xFF (modeled by jsOr with default 0 for missing cells). -/

set_option maxRecDepth 8000

namespace GBV

/-- JavaScript truthy-or (x || y) on non-negative integers: returns y when x is zero. -/
def jsOr (a b : Nat) : Nat := if a = 0 then b else a

/-- Pointwise update of a memory modeled as a function. -/
def upd (f : Nat → Nat) (i v : Nat) : Nat → Nat := fun j => if j = i then v else f j

theorem upd_self (f : Nat → Nat) (i v : Nat) : upd f i v i = v := by simp [upd]

theorem upd_ne (f : Nat → Nat) (i v j : Nat) (h : j ≠ i) : upd f i v j = f j := by
  simp [upd, h]

/-- The 16-bit mask applied by JavaScript after subtractions that may go negative:
(x) & 0xFFFF in 32-bit two's complement equals the non-negative residue mod 65536. -/
def jsAnd16 (x : Int) : Nat := (x % 65536).toNat

/-- Bitwise fact used throughout: OR-ing a mask in forces the mask bits to one. -/
theorem lor_land_self (x m : Nat) : (x ||| m) &&& m = m := by
  apply Nat.eq_of_testBit_eq
  intro i
  simp only [Nat.testBit_and, Nat.testBit_or]
  cases x.testBit i <;> cases m.testBit i <;> rfl

/- ===== 8-bit register file, shared by both CPU embeddings =====
   Registers A, F, B, C, D, E, H, L as in cpu.js (this.registers) and in
   the TypeScript CPU (this.r, which also holds pc and sp, modeled apart). -/

structure Regs where
  A : Nat
  F : Nat
  B : Nat
  C : Nat
  D : Nat
  E : Nat
  H : Nat
  L : Nat
  deriving Repr, DecidableEq

/-- Names of the 8-bit registers, standing for the string keys of the sources. -/
inductive R8 where
  | A | F | B | C | D | E | H | L
  deriving Repr, DecidableEq

def Regs.get (rs : Regs) : R8 → Nat
  | .A => rs.A
  | .F => rs.F
  | .B => rs.B
  | .C => rs.C
  | .D => rs.D
  | .E => rs.E
  | .H => rs.H
  | .L => rs.L

def Regs.set (rs : Regs) : R8 → Nat → Regs
  | .A, v => { rs with A := v }
  | .F, v => { rs with F := v }
  | .B, v => { rs with B := v }
  | .C, v => { rs with C := v }
  | .D, v => { rs with D := v }
  | .E, v => { rs with E := v }
  | .H, v => { rs with H := v }
  | .L, v => { rs with L := v }

/- ===== TypeScript emulator: memory.ts ===== -/

/-- Bitmasks for audio address reads (memory.ts, apuMask). -/
def apuMask : List Nat :=
  [0x80, 0x3f, 0x00, 0xff, 0xbf,
   0xff, 0x3f, 0x00, 0xff, 0xbf,
   0x7f, 0xff, 0x9f, 0xff, 0xbf,
   0xff, 0xff, 0x00, 0x00, 0xbf,
   0x00, 0x00, 0x70,
   0xff, 0xff, 0xff, 0xff, 0xff, 0xff, 0xff, 0xff, 0xff,
   0x00, 0x00, 0x00, 0x00, 0x00, 0x00, 0x00, 0x00,
   0x00, 0x00, 0x00, 0x00, 0x00, 0x00, 0x00, 0x00]

/-- Memory read proxy of memory.ts (Memory.rb): sound registers are OR-ed with a
fixed mask, external RAM is delegated to the MBC (its undefined result becomes 0
through the ?? 0 of the source), anything else is a plain cell read. -/
def memRb (mem : Nat → Nat) (hasMbc : Bool) (mbcRam : Nat → Option Nat) (addr : Nat) : Nat :=
  if 0xff10 ≤ addr ∧ addr < 0xff40 then
    mem addr ||| apuMask.getD (addr - 0xff10) 0
  else if hasMbc ∧ 0xa000 ≤ addr ∧ addr < 0xc000 then
    (mbcRam addr).getD 0
  else
    mem addr

/- ===== TypeScript emulator: instructions.ts (cpuOps) =====
   The CPU object of cpu.ts carries the register file r (with pc and sp),
   the clock and the memory; the fields needed by the embedded operations. -/

structure TSCpu where
  r : Regs
  pc : Nat
  sp : Nat
  clock : Nat
  mem : Nat → Nat
  hasMbc : Bool
  mbcRam : Nat → Option Nat

def TSCpu.rb (p : TSCpu) (addr : Nat) : Nat := memRb p.mem p.hasMbc p.mbcRam addr

/-- Arithmetic core of ops._ADDrn: given the current value of register r1 and the
operand n, returns the new register value and the new F, mirroring the source
statement by statement (h test, unmasked add, carry test on bit 8, mask, flag
assembly into a fresh f). -/
def addRN (a n : Nat) : Nat × Nat :=
  let h := ((a &&& 0xf) + (n &&& 0xf)) &&& 0x10
  let a1 := a + n
  let c := a1 &&& 0x100
  let a2 := a1 &&& 0xff
  let f0 := 0
  let f1 := if a2 = 0 then f0 ||| 0x80 else f0
  let f2 := if h ≠ 0 then f1 ||| 0x20 else f1
  let f3 := if c ≠ 0 then f2 ||| 0x10 else f2
  (a2, f3)

/-- ops._ADDrn on the CPU state: writes the register (already masked) and then F. -/
def opADDrnCore (p : TSCpu) (r1 : R8) (n : Nat) : TSCpu :=
  let res := addRN (p.r.get r1) n
  { p with r := (p.r.set r1 res.1).set .F res.2 }

/-- ops.ADDrr: ADD r1,r2 (n is the value of register r2), clock advances by 4. -/
def opADDrr (p : TSCpu) (r1 r2 : R8) : TSCpu :=
  let n := p.r.get r2
  let p1 := opADDrnCore p r1 n
  { p1 with clock := p1.clock + 4 }

/-- ops.POPrr: pops two bytes, low into r2, high into r1 (POP AF is r1 = A, r2 = F);
the popped byte is written to F verbatim, with no mask on the low four bits. -/
def opPOPrr (p : TSCpu) (r1 r2 : R8) : TSCpu :=
  let p1 := { p with r := p.r.set r2 (p.rb p.sp) }
  let p2 := { p1 with sp := p1.sp + 1 }
  let p3 := { p2 with r := p2.r.set r1 (p2.rb p2.sp) }
  let p4 := { p3 with sp := p3.sp + 1 }
  { p4 with clock := p4.clock + 12 }

/- ===== Plain-JS emulator: cpu.js arithmetic helpers ===== -/

/-- setFlag of cpu.js: sets or clears one flag bit in F (clearing uses the 32-bit
AND with the complement, which on any natural number removes exactly that bit). -/
def setFlag (f bit : Nat) (v : Bool) : Nat :=
  if v then f ||| bit else f - (f &&& bit)

/-- add8 of cpu.js: 8-bit add helper; returns the masked result and the new F
obtained by the four setFlag calls of the source. -/
def add8 (f a b : Nat) : Nat × Nat :=
  let result := (a + b) &&& 0xff
  let f1 := setFlag f 0x80 (result = 0)
  let f2 := setFlag f1 0x40 false
  let f3 := setFlag f2 0x20 ((a &&& 0x0f) + (b &&& 0x0f) > 0x0f)
  let f4 := setFlag f3 0x10 (a + b > 0xff)
  (result, f4)

/-- Flag byte demanded by the specification for ADD A,n:
Z = (result = 0), N = 0, H = half-carry, C = full carry (spec wording). -/
def specAddFlags (a n : Nat) : Nat :=
  (if (a + n) % 256 = 0 then 0x80 else 0) +
  (if (a &&& 0xf) + (n &&& 0xf) > 0xf then 0x20 else 0) +
  (if a + n > 0xff then 0x10 else 0)

theorem and_ff_mod (x : Nat) : x &&& 0xff = x % 256 := by
  have h := Nat.and_pow_two_sub_one_eq_mod x 8
  norm_num at h
  exact h

theorem and16_iff : ∀ s, s < 32 → ((s &&& 0x10 ≠ 0) ↔ 0xf < s) := by decide

theorem and256_iff : ∀ u, u < 512 → ((u &&& 0x100 ≠ 0) ↔ 0xff < u) := by decide

theorem addRN_eq (a n : Nat) (ha : a < 256) (hn : n < 256) :
    addRN a n = ((a + n) % 256, specAddFlags a n) := by
  have h1 : a &&& 0xf ≤ 0xf := Nat.and_le_right
  have h2 : n &&& 0xf ≤ 0xf := Nat.and_le_right
  have hs : (a &&& 0xf) + (n &&& 0xf) < 32 := by omega
  have hu : a + n < 512 := by omega
  have hH := and16_iff _ hs
  have hC := and256_iff _ hu
  simp only [addRN, specAddFlags, and_ff_mod]
  by_cases hz : (a + n) % 256 = 0 <;>
    by_cases hh : 0xf < (a &&& 0xf) + (n &&& 0xf) <;>
      by_cases hc : 0xff < a + n <;>
        simp [hz, hh, hc, hH, hC] <;> decide

theorem add8_zero_eq (a n : Nat) (ha : a < 256) (hn : n < 256) :
    add8 0 a n = ((a + n) % 256, specAddFlags a n) := by
  simp only [add8, setFlag, specAddFlags, and_ff_mod]
  by_cases hz : (a + n) % 256 = 0 <;>
    by_cases hh : 0xf < (a &&& 0xf) + (n &&& 0xf) <;>
      by_cases hc : 0xff < a + n <;>
        simp [hz, hh, hc] <;> decide

theorem specAddFlags_low_nibble (a n : Nat) : specAddFlags a n &&& 0x0f = 0 := by
  simp only [specAddFlags]
  split <;> split <;> split <;> decide

/-- CPU state of the arithmetic seed test: A = 0x3A, B = 0xC6, F = 0x00. -/
def addVecCpu : TSCpu :=
  { r := { A := 0x3a, F := 0, B := 0xc6, C := 0, D := 0, E := 0, H := 0, L := 0 },
    pc := 0, sp := 0, clock := 0, mem := fun _ => 0,
    hasMbc := false, mbcRam := fun _ => none }

/-- C1: for all 8-bit A and operand n, ADD A,n stores (A+n) mod 256 in A and sets
the flags to Z = (result = 0), N = 0, H = half-carry, C = carry; this holds for
the TypeScript ops._ADDrn core and for add8 of cpu.js (started from F = 0), and
on the seed vector A = 0x3A, B = 0xC6, F = 0, executing ADD A,B through
ops.ADDrr leaves A = 0x00 and F = 0xB0. -/
theorem C1_add_a_n_flags :
    (∀ a n : Nat, a < 256 → n < 256 →
        addRN a n = ((a + n) % 256, specAddFlags a n) ∧
        add8 0 a n = ((a + n) % 256, specAddFlags a n)) ∧
    specAddFlags 0x3a 0xc6 = 0xb0 ∧
    (opADDrr addVecCpu .A .B).r.A = 0x00 ∧
    (opADDrr addVecCpu .A .B).r.F = 0xb0 :=
  ⟨fun a n ha hn => ⟨addRN_eq a n ha hn, add8_zero_eq a n ha hn⟩,
   by decide, by decide, by decide⟩

/-- Witness for C1: the universal part applied at the concrete seed inputs. -/
theorem C1_add_a_n_flags_witness :
    (0x3a : Nat) < 256 ∧ (0xc6 : Nat) < 256 ∧
    addRN 0x3a 0xc6 = ((0x3a + 0xc6) % 256, specAddFlags 0x3a 0xc6) ∧
    add8 0 0x3a 0xc6 = ((0x3a + 0xc6) % 256, specAddFlags 0x3a 0xc6) :=
  ⟨by decide, by decide,
   (C1_add_a_n_flags.1 0x3a 0xc6 (by decide) (by decide)).1,
   (C1_add_a_n_flags.1 0x3a 0xc6 (by decide) (by decide)).2⟩

/-- CPU state about to execute POP AF with 0xFF on top of the stack. -/
def popVecCpu : TSCpu :=
  { r := { A := 0, F := 0, B := 0, C := 0, D := 0, E := 0, H := 0, L := 0 },
    pc := 0x100, sp := 0xff80, clock := 0,
    mem := fun a => if a = 0xff80 then 0xff else 0,
    hasMbc := false, mbcRam := fun _ => none }

/-- C2 counterexample: POP AF (ops.POPrr with r1 = A, r2 = F) copies the stack
byte into F verbatim, so with 0xFF on the stack the instruction leaves the low
four bits of F equal to 0x0F, refuting (F AND 0x0F) = 0 after every instruction. -/
theorem C2_counterexample_pop_af :
    ((opPOPrr popVecCpu .A .F).r.get .F) &&& 0x0f = 0x0f ∧ (0x0f : Nat) ≠ 0 := by
  constructor
  · decide
  · decide

/-- C2 amended: the flag-assembling arithmetic path keeps the low four bits of F
zero (shown for the ADD core), but POP AF loads F directly from memory, so after
POP AF the low nibble of F is exactly the low nibble of the popped byte. -/
theorem C2_f_low_nibble_amended :
    (∀ a n : Fin 256, (addRN a.val n.val).2 &&& 0x0f = 0) ∧
    (∀ p : TSCpu, (opPOPrr p .A .F).r.get .F = p.rb p.sp) := by
  constructor
  · intro a n
    rw [addRN_eq a.val n.val a.isLt n.isLt]
    exact specAddFlags_low_nibble a.val n.val
  · intro p
    rfl

/-- C10: every bus read in the sound-register range 0xFF10-0xFF3F returns the
stored byte OR-ed with the fixed per-register mask (so the masked bits always
read back as one), with mask 0x80 for NR10, 0x70 for NR52 and 0x00 for wave RAM. -/
theorem C10_sound_register_masks :
    (∀ (mem : Nat → Nat) (hasMbc : Bool) (ram : Nat → Option Nat) (addr : Nat),
        0xff10 ≤ addr → addr < 0xff40 →
        memRb mem hasMbc ram addr = mem addr ||| apuMask.getD (addr - 0xff10) 0 ∧
        memRb mem hasMbc ram addr &&& apuMask.getD (addr - 0xff10) 0 =
          apuMask.getD (addr - 0xff10) 0) ∧
    apuMask.getD (0xff10 - 0xff10) 0 = 0x80 ∧
    apuMask.getD (0xff26 - 0xff10) 0 = 0x70 ∧
    (∀ a, 0xff30 ≤ a → a < 0xff40 → apuMask.getD (a - 0xff10) 0 = 0) := by
  refine ⟨?_, by decide, by decide, ?_⟩
  · intro mem hasMbc ram addr h1 h2
    have hcond : 0xff10 ≤ addr ∧ addr < 0xff40 := ⟨h1, h2⟩
    rw [memRb, if_pos hcond]
    exact ⟨rfl, lor_land_self _ _⟩
  · intro a h1 h2
    have hi : ∀ i, 0x20 ≤ i → i < 0x30 → apuMask.getD i 0 = 0 := by decide
    exact hi (a - 0xff10) (by omega) (by omega)

/-- Witness for C10: the mask equation applied at address 0xFF10 (NR10). -/
theorem C10_sound_register_masks_witness :
    (0xff10 : Nat) ≤ 0xff10 ∧ (0xff10 : Nat) < 0xff40 ∧
    memRb (fun a => if a = 0xff10 then 0x12 else 0) false (fun _ => none) 0xff10 =
      (if (0xff10 : Nat) = 0xff10 then 0x12 else 0) ||| apuMask.getD (0xff10 - 0xff10) 0 :=
  ⟨by decide, by decide,
   (C10_sound_register_masks.1 (fun a => if a = 0xff10 then 0x12 else 0)
     false (fun _ => none) 0xff10 (by decide) (by decide)).1⟩

/- ===== Plain-JS emulator: cartridge.js (Cartridge and MBC1) =====
   The ROM and external RAM are Uint8Array values; they are modeled as a
   total function together with the array length.  Indexing out of range in
   JavaScript yields undefined, and the sources read bytes through the
   pattern arr[i] || 0xFF, so a stored zero byte and an out-of-range index
   both read as 0xFF; romByte and ramByte reproduce this. -/

structure CartData where
  rom : Nat → Nat
  romLen : Nat
  ram : Option (Nat → Nat)
  ramLen : Nat
  romBankCount : Nat

/-- The read pattern rom[i] || 0xFF of the source. -/
def romByte (c : CartData) (i : Nat) : Nat :=
  jsOr (if i < c.romLen then c.rom i else 0) 0xff

/-- The read pattern ram[i] || 0xFF of the source (only reached when RAM exists). -/
def ramByte (c : CartData) (i : Nat) : Nat :=
  match c.ram with
  | some f => jsOr (if i < c.ramLen then f i else 0) 0xff
  | none => 0xff

/-- Banking state of the MBC1 object (its own fields, separate from the
romBank/ramBank mirror fields kept on the Cartridge object). -/
structure MBC1State where
  ramEnabled : Bool
  romBank : Nat
  ramBank : Nat
  bankingMode : Nat
  deriving Repr, DecidableEq

/-- MBC1.read of the plain-JS cartridge code. -/
def mbc1Read (c : CartData) (s : MBC1State) (address : Nat) : Nat :=
  if address < 0x4000 then
    let bank := if s.bankingMode = 1 ∧ c.romBankCount > 32 then s.ramBank <<< 5 else 0
    romByte c (address + bank * 0x4000)
  else if address < 0x8000 then
    let bank :=
      if s.bankingMode = 1 ∧ c.romBankCount > 32 then s.romBank ||| (s.ramBank <<< 5)
      else s.romBank
    romByte c (address - 0x4000 + bank * 0x4000)
  else if 0xa000 ≤ address ∧ address < 0xc000 then
    if s.ramEnabled = false ∨ c.ram.isNone then 0xff
    else
      let bank := if s.bankingMode = 1 then s.ramBank else 0
      ramByte c (address - 0xa000 + bank * 0x2000)
  else 0xff

/-- MBC1.write of the plain-JS cartridge code; returns the new banking state
and the (possibly RAM-updated) cartridge data. -/
def mbc1Write (c : CartData) (s : MBC1State) (address value : Nat) : MBC1State × CartData :=
  if address < 0x2000 then
    ({ s with ramEnabled := value &&& 0x0f = 0x0a }, c)
  else if address < 0x4000 then
    let rb := value &&& 0x1f
    ({ s with romBank := if rb = 0 then 1 else rb }, c)
  else if address < 0x6000 then
    ({ s with ramBank := value &&& 0x03 }, c)
  else if address < 0x8000 then
    ({ s with bankingMode := value &&& 0x01 }, c)
  else if 0xa000 ≤ address ∧ address < 0xc000 then
    if s.ramEnabled = true ∧ c.ram.isSome then
      let bank := if s.bankingMode = 1 then s.ramBank else 0
      let ramAddress := address - 0xa000 + bank * 0x2000
      if ramAddress < c.ramLen then
        (s, { c with ram := c.ram.map (fun f => upd f ramAddress (value &&& 0xff)) })
      else (s, c)
    else (s, c)
  else (s, c)

/-- A 128 KiB type-0x01 cartridge (8 ROM banks) with marker bytes at the bank-5
offset 0x14000 and elsewhere 0x33; fresh MBC1 state. -/
def cart128 : CartData :=
  { rom := fun a => if a = 0x14000 then 0x11 else 0x33,
    romLen := 0x20000, ram := none, ramLen := 0, romBankCount := 8 }

def mbcFresh : MBC1State :=
  { ramEnabled := false, romBank := 1, ramBank := 0, bankingMode := 0 }

/-- A 1 MiB cartridge (64 ROM banks) distinguishing bank 5 (byte 0x11 at offset
0x14000) from bank 37 (byte 0x22 at offset 0x94000). -/
def cart1M : CartData :=
  { rom := fun a => if a = 0x14000 then 0x11 else if a = 0x94000 then 0x22 else 0x33,
    romLen := 0x100000, ram := none, ramLen := 0, romBankCount := 64 }

/-- MBC1 state in banking mode 0 whose secondary (ramBank) register is 1. -/
def mbcSec1 : MBC1State :=
  { ramEnabled := false, romBank := 1, ramBank := 1, bankingMode := 0 }

/-- C5 counterexample: in banking mode 0 with the secondary register equal to 1,
writing 0x05 to 0x2000 makes the high region read bank 5 (byte 0x11 at ROM
offset 0x14000), not bank (secondary shifted left 5 OR 5) = 37 (whose byte at
offset 0x94000 is 0x22); the claimed formula for mode 0 is false. -/
theorem C5_counterexample_mode0_secondary :
    mbc1Read cart1M (mbc1Write cart1M mbcSec1 0x2000 0x05).1 0x4000 = 0x11 ∧
    cart1M.rom (((mbcSec1.ramBank <<< 5) ||| 0x05) * 0x4000) = 0x22 ∧
    (0x11 : Nat) ≠ 0x22 := by
  refine ⟨by decide, by decide, by decide⟩

/-- C5 amended: under MBC1 in banking mode 0, writing v to 0x2000-0x3FFF sets the
ROM bank to max(v AND 0x1F, 1); the high region 0x4000-0x7FFF then reads from
that bank alone (the secondary register is ignored in mode 0), the low region
0x0000-0x3FFF maps bank 0, and the concrete 128 KiB scenarios hold: after
writing 0x05 the byte at 0x4000 is the ROM byte at offset 0x14000, and after
writing 0x00 it is the ROM byte at offset 0x4000 (bank 0 remapped to 1). -/
theorem C5_amended_mbc1_mode0 (c : CartData) (s : MBC1State) (v : Nat)
    (hmode : s.bankingMode = 0) :
    (mbc1Write c s 0x2000 v).2 = c ∧
    (mbc1Write c s 0x2000 v).1.romBank = (if v &&& 0x1f = 0 then 1 else v &&& 0x1f) ∧
    (mbc1Write c s 0x2000 v).1.bankingMode = 0 ∧
    (∀ addr, 0x4000 ≤ addr → addr < 0x8000 →
        mbc1Read c (mbc1Write c s 0x2000 v).1 addr =
          romByte c (addr - 0x4000 +
            (if v &&& 0x1f = 0 then 1 else v &&& 0x1f) * 0x4000)) ∧
    (∀ addr, addr < 0x4000 →
        mbc1Read c (mbc1Write c s 0x2000 v).1 addr = romByte c addr) ∧
    mbc1Read cart128 (mbc1Write cart128 mbcFresh 0x2000 0x05).1 0x4000 = 0x11 ∧
    cart128.rom 0x14000 = 0x11 ∧
    mbc1Read cart128 (mbc1Write cart128 mbcFresh 0x2000 0x00).1 0x4000 =
      romByte cart128 0x4000 := by
  have hw : mbc1Write c s 0x2000 v =
      ({ s with romBank := if v &&& 0x1f = 0 then 1 else v &&& 0x1f }, c) := by
    rw [mbc1Write, if_neg (by omega), if_pos (by omega)]
  refine ⟨by rw [hw], by rw [hw], by rw [hw]; exact hmode, ?_, ?_, by decide, by decide, by decide⟩
  · intro addr hlo hhi
    rw [hw]
    rw [mbc1Read, if_neg (by omega), if_pos (by omega)]
    have hmode2 : ¬ (({ s with romBank := if v &&& 0x1f = 0 then 1 else v &&& 0x1f } :
        MBC1State).bankingMode = 1 ∧ c.romBankCount > 32) := by
      simp [hmode]
    rw [if_neg hmode2]
  · intro addr hlt
    rw [hw]
    rw [mbc1Read, if_pos hlt]
    have hmode2 : ¬ (({ s with romBank := if v &&& 0x1f = 0 then 1 else v &&& 0x1f } :
        MBC1State).bankingMode = 1 ∧ c.romBankCount > 32) := by
      simp [hmode]
    rw [if_neg hmode2]
    simp

/-- Witness for C5: the amended statement applied to the fresh 128 KiB cartridge
with v = 0x05 and the high-region address 0x4000. -/
theorem C5_amended_mbc1_mode0_witness :
    mbcFresh.bankingMode = 0 ∧
    mbc1Read cart128 (mbc1Write cart128 mbcFresh 0x2000 0x05).1 0x4000 =
      romByte cart128 (0x4000 - 0x4000 +
        (if (0x05 : Nat) &&& 0x1f = 0 then 1 else (0x05 : Nat) &&& 0x1f) * 0x4000) :=
  ⟨rfl, (C5_amended_mbc1_mode0 cart128 mbcFresh 0x05 rfl).2.2.2.1 0x4000
    (by decide) (by decide)⟩

/- ===== Plain-JS emulator: mmu.js ===== -/

structure Joypad where
  right : Bool
  left : Bool
  up : Bool
  down : Bool
  a : Bool
  b : Bool
  select : Bool
  start : Bool
  deriving Repr, DecidableEq

/-- Bus state of mmu.js.  The attached cartridge is the Cartridge object with
its MBC; the claims exercise the MBC1 variant, which is the one embedded. -/
structure JsMMU where
  bios : Nat → Nat
  biosEnabled : Bool
  vram : Nat → Nat
  wram : Nat → Nat
  oam : Nat → Nat
  hram : Nat → Nat
  io : Nat → Nat
  cart : Option (CartData × MBC1State)
  joypad : Joypad

/-- getJoypadState of mmu.js: active-low joypad nibble assembled from the
selected column(s); bit set means the button is NOT pressed. -/
def getJoypadState (m : JsMMU) : Nat :=
  let p1 := m.io 0x00
  let r0 := p1 &&& 0x30
  let r1 :=
    if p1 &&& 0x10 = 0 then
      let d0 := if m.joypad.down = false then r0 ||| 0x08 else r0
      let d1 := if m.joypad.up = false then d0 ||| 0x04 else d0
      let d2 := if m.joypad.left = false then d1 ||| 0x02 else d1
      if m.joypad.right = false then d2 ||| 0x01 else d2
    else r0
  if p1 &&& 0x20 = 0 then
    let b0 := if m.joypad.start = false then r1 ||| 0x08 else r1
    let b1 := if m.joypad.select = false then b0 ||| 0x04 else b0
    let b2 := if m.joypad.b = false then b1 ||| 0x02 else b1
    if m.joypad.a = false then b2 ||| 0x01 else b2
  else r1

/-- updateJoypad of mmu.js: replaces the button state and requests the joypad
interrupt only when the old read had a nonzero low nibble and the new read has
low nibble zero. -/
def updateJoypad (m : JsMMU) (st : Joypad) : JsMMU :=
  let oldState := getJoypadState m
  let m1 := { m with joypad := st }
  let newState := getJoypadState m1
  if oldState &&& 0x0f ≠ 0 ∧ newState &&& 0x0f = 0 then
    { m1 with io := upd m1.io 0x0f ((m1.io 0x0f ||| 0x10) &&& 0xff) }
  else m1

/-- Cartridge.read as seen from the bus: absent cartridge (or absent MBC) reads 0xFF. -/
def cartReadJs (m : JsMMU) (address : Nat) : Nat :=
  match m.cart with
  | some cs => mbc1Read cs.1 cs.2 address
  | none => 0xff

/-- Cartridge.write as seen from the bus. -/
def cartWriteJs (m : JsMMU) (address value : Nat) : JsMMU :=
  match m.cart with
  | some cs =>
    let r := mbc1Write cs.1 cs.2 address value
    { m with cart := some (r.2, r.1) }
  | none => m

/-- The readIO handler of mmu.js: P1 reads come from the joypad logic, everything else from
the register file. -/
def readIOReg (m : JsMMU) (offset : Nat) : Nat :=
  if offset = 0x00 then getJoypadState m else m.io offset

/-- read8 of mmu.js: full address decode. -/
def read8 (m : JsMMU) (address0 : Nat) : Nat :=
  let address := address0 &&& 0xffff
  if address < 0x100 ∧ m.biosEnabled = true then m.bios address
  else if address < 0x4000 then cartReadJs m address
  else if address < 0x8000 then cartReadJs m address
  else if address < 0xa000 then m.vram (address - 0x8000)
  else if address < 0xc000 then cartReadJs m address
  else if address < 0xd000 then m.wram (address - 0xc000)
  else if address < 0xe000 then m.wram (address - 0xc000)
  else if address < 0xfe00 then m.wram (address - 0xe000)
  else if address < 0xfea0 then m.oam (address - 0xfe00)
  else if address < 0xff00 then 0xff
  else if address < 0xff80 then readIOReg m (address - 0xff00)
  else if address < 0xffff then m.hram (address - 0xff80)
  else if address = 0xffff then m.io 0x7f
  else 0xff

/-- performDMA of mmu.js: 160 sequential byte copies into the sprite table. -/
def performDMA (m : JsMMU) (sourceHigh : Nat) : JsMMU :=
  (List.range 0xa0).foldl
    (fun mm i => { mm with oam := upd mm.oam i (read8 mm ((sourceHigh <<< 8) + i) &&& 0xff) })
    m

/-- The writeIO handler of mmu.js: special cases for P1, DIV, LY, DMA and the boot flag;
anything else stores into the register file. -/
def writeIOReg (m : JsMMU) (offset value : Nat) : JsMMU :=
  if offset = 0x00 then
    { m with io := upd m.io 0x00 ((m.io 0x00 &&& 0x0f) ||| (value &&& 0x30)) }
  else if offset = 0x04 then { m with io := upd m.io 0x04 0 }
  else if offset = 0x44 then { m with io := upd m.io 0x44 0 }
  else if offset = 0x46 then
    let m1 := performDMA m value
    { m1 with io := upd m1.io 0x46 value }
  else if offset = 0x50 then
    (if value ≠ 0 then { m with biosEnabled := false } else m)
  else { m with io := upd m.io offset value }

/-- write8 of mmu.js: full address decode for stores.  The bios-disable test
inside the ROM branch of the source compares an address below 0x8000 with
0xFF50 and can never fire; it is kept verbatim. -/
def write8 (m : JsMMU) (address0 value0 : Nat) : JsMMU :=
  let address := address0 &&& 0xffff
  let value := value0 &&& 0xff
  if address < 0x8000 then
    let m1 := cartWriteJs m address value
    if address = 0xff50 ∧ value ≠ 0 then { m1 with biosEnabled := false } else m1
  else if address < 0xa000 then { m with vram := upd m.vram (address - 0x8000) value }
  else if address < 0xc000 then cartWriteJs m address value
  else if address < 0xd000 then { m with wram := upd m.wram (address - 0xc000) value }
  else if address < 0xe000 then { m with wram := upd m.wram (address - 0xc000) value }
  else if address < 0xfe00 then { m with wram := upd m.wram (address - 0xe000) value }
  else if address < 0xfea0 then { m with oam := upd m.oam (address - 0xfe00) value }
  else if address < 0xff00 then m
  else if address < 0xff80 then writeIOReg m (address - 0xff00) value
  else if address < 0xffff then { m with hram := upd m.hram (address - 0xff80) value }
  else { m with io := upd m.io 0x7f value }

/- ===== Plain-JS emulator: ppu.js (LYC coincidence) ===== -/

/-- checkLYC of ppu.js, acting on the bus register file for a given value of the
current scanline: sets or clears STAT bit 2 and raises the STAT interrupt when
the LYC interrupt enable bit is on. -/
def checkLYC (m : JsMMU) (currentLine : Nat) : JsMMU :=
  let lyc := m.io 0x45
  if currentLine = lyc then
    let m1 := { m with io := upd m.io 0x41 ((m.io 0x41 ||| 0x04) &&& 0xff) }
    if m1.io 0x41 &&& 0x40 ≠ 0 then
      { m1 with io := upd m1.io 0x0f ((m1.io 0x0f ||| 0x02) &&& 0xff) }
    else m1
  else { m with io := upd m.io 0x41 (m.io 0x41 &&& 0xfb) }

/- ===== Plain-JS emulator: gameboy.js (updateTimer) ===== -/

/-- updateTimer of gameboy.js, acting on the register file given the CPU total
cycle counter: TIMA ticks only when totalCycles is an exact multiple of the
period; DIV ticks only when totalCycles is an exact multiple of 256. -/
def updateTimer (totalCycles : Nat) (io : Nat → Nat) : Nat → Nat :=
  let tac := io 0x07
  let io1 :=
    if tac &&& 0x04 ≠ 0 then
      let clockSelect := tac &&& 0x03
      let frequencies : List Nat := [4096, 262144, 65536, 16384]
      let cyclesPerTick := 4194304 / frequencies.getD clockSelect 0
      if totalCycles % cyclesPerTick = 0 then
        let tima := io 0x05 + 1
        if tima > 0xff then
          upd (upd io 0x0f ((io 0x0f ||| 0x04) &&& 0xff)) 0x05 (io 0x06 &&& 0xff)
        else upd io 0x05 (tima &&& 0xff)
      else io
    else io
  if totalCycles % 256 = 0 then upd io1 0x04 ((io1 0x04 + 1) &&& 0xff) else io1

/-- Frame-loop fragment of gameboy.js for the timer: each instruction adds its
cycle cost to totalCycles and then updateTimer runs once. -/
def runTimer (costs : List Nat) (tc : Nat) (io : Nat → Nat) : Nat × (Nat → Nat) :=
  costs.foldl (fun p c => (p.1 + c, updateTimer (p.1 + c) p.2)) (tc, io)

/-- Register file with the timer enabled at 262144 Hz (TAC = 0x05, 16 cycles per
tick), TIMA = 0, TMA = 0. -/
def timerIO : Nat → Nat := fun a => if a = 0x07 then 0x05 else 0

/-- C6: the timer tick is NOT independent of how the cycle advance is split
across instructions.  With TAC = 0x05 (enabled, 16 cycles per tick), splitting
20 cycles as 12 + 8 produces no TIMA increment, while splitting the same 20
cycles as 16 + 4 produces one: the code only ticks when totalCycles lands
exactly on a multiple of the period. -/
theorem C6_timer_skips_ticks :
    (runTimer [12, 8] 0 timerIO).2 0x05 = 0 ∧
    (runTimer [16, 4] 0 timerIO).2 0x05 = 1 ∧
    12 + 8 = 16 + 4 := by
  refine ⟨by decide, by decide, by decide⟩

/-- Bus whose STAT register is 0x85 (coincidence bit set), LY = LYC = 0. -/
def lycMMU : JsMMU :=
  { bios := fun _ => 0, biosEnabled := false,
    vram := fun _ => 0, wram := fun _ => 0, oam := fun _ => 0, hram := fun _ => 0,
    io := fun a => if a = 0x41 then 0x85 else 0,
    cart := none,
    joypad := ⟨false, false, false, false, false, false, false, false⟩ }

/-- C8 counterexample: the coincidence invariant holds in lycMMU with the
current line 0, but after the CPU writes LYC := 5 through the bus mid-scanline
the STAT coincidence bit is still set while currentLine = 0 differs from
LYC = 5, so the claimed at-any-instant equivalence fails. -/
theorem C8_counterexample_lyc_write :
    (lycMMU.io 0x41 &&& 0x04 ≠ 0 ∧ 0 = lycMMU.io 0x45) ∧
    ((write8 lycMMU 0xff45 0x05).io 0x41 &&& 0x04 ≠ 0) ∧
    (0 : Nat) ≠ (write8 lycMMU 0xff45 0x05).io 0x45 := by
  refine ⟨⟨by decide, by decide⟩, by decide, by decide⟩

theorem checkLYC_io41 (m : JsMMU) (line : Nat) :
    (checkLYC m line).io 0x41 =
      (if line = m.io 0x45 then (m.io 0x41 ||| 0x04) &&& 0xff
       else m.io 0x41 &&& 0xfb) := by
  by_cases h : line = m.io 0x45
  · simp only [checkLYC, if_pos h]
    split <;> simp [upd]
  · simp only [checkLYC, if_neg h]
    simp [upd]

theorem checkLYC_io45 (m : JsMMU) (line : Nat) :
    (checkLYC m line).io 0x45 = m.io 0x45 := by
  by_cases h : line = m.io 0x45
  · simp only [checkLYC, if_pos h]
    split <;> simp [upd]
  · simp only [checkLYC, if_neg h]
    simp [upd]

/-- C8 amended: the coincidence equivalence is re-established by every checkLYC
call (the PPU runs it at each line change): right after checkLYC, STAT bit 2 is
set exactly when the current line equals LYC, and LYC itself is unchanged.  A
CPU write to LYC does not update STAT, so between such a write and the next
checkLYC the equivalence can fail (see the counterexample). -/
theorem C8_amended_lyc_after_check (m : JsMMU) (line : Nat) :
    ((checkLYC m line).io 0x41 &&& 0x04 ≠ 0 ↔ line = m.io 0x45) ∧
    (checkLYC m line).io 0x45 = m.io 0x45 := by
  have hbit : ∀ x : Nat, ((x ||| 0x04) &&& 0xff) &&& 0x04 = 0x04 := by
    intro x
    rw [Nat.land_assoc]
    have h4 : (0xff : Nat) &&& 0x04 = 0x04 := by decide
    rw [h4]
    exact lor_land_self x 0x04
  have hz : ∀ x : Nat, (x &&& 0xfb) &&& 0x04 = 0 := by
    intro x
    rw [Nat.land_assoc]
    have h0 : (0xfb : Nat) &&& 0x04 = 0 := by decide
    rw [h0, Nat.and_zero]
  constructor
  · rw [checkLYC_io41]
    by_cases h : line = m.io 0x45
    · rw [if_pos h, hbit]
      exact iff_of_true (by decide) h
    · rw [if_neg h, hz]
      exact iff_of_false (by simp) h
  · exact checkLYC_io45 m line

/-- Bus with the direction column selected in P1 (value 0x20: bit 4 low selects
directions, bit 5 high deselects the action buttons) and all buttons released. -/
def joyMMU : JsMMU :=
  { bios := fun _ => 0, biosEnabled := false,
    vram := fun _ => 0, wram := fun _ => 0, oam := fun _ => 0, hram := fun _ => 0,
    io := fun a => if a = 0x00 then 0x20 else 0,
    cart := none,
    joypad := ⟨false, false, false, false, false, false, false, false⟩ }

/-- Joypad state after freshly pressing Down. -/
def joyDown : Joypad := ⟨false, false, false, true, false, false, false, false⟩

/-- C9 evaluation at the failing input: with the direction column selected and
all buttons released, a fresh press of Down leaves the joypad interrupt flag
(IF bit 4) clear, because updateJoypad requires the whole low nibble of the
joypad read to drop to zero (all four buttons of the column pressed at once). -/
theorem C9_fresh_press_no_interrupt :
    joyMMU.io 0x00 &&& 0x10 = 0 ∧
    joyMMU.joypad.down = false ∧
    (updateJoypad joyMMU joyDown).io 0x0f &&& 0x10 = 0 := by
  refine ⟨by decide, by decide, by decide⟩

/- ===== Plain-JS emulator: cpu.js ===== -/

structure JsCPU where
  regs : Regs
  SP : Nat
  PC : Nat
  IME : Bool
  halted : Bool
  stopped : Bool
  cycles : Nat
  totalCycles : Nat

structure JsMachine where
  cpu : JsCPU
  mmu : JsMMU

def mmuIE (m : JsMachine) : Nat := m.mmu.io 0x7f

def mmuIF (m : JsMachine) : Nat := m.mmu.io 0x0f

/-- Store through the IF setter of mmu.js (the register file is a Uint8Array). -/
def setIF (m : JsMachine) (v : Nat) : JsMachine :=
  { m with mmu := { m.mmu with io := upd m.mmu.io 0x0f (v &&& 0xff) } }

def mread8 (m : JsMachine) (a : Nat) : Nat := read8 m.mmu a

def mwrite8 (m : JsMachine) (a v : Nat) : JsMachine := { m with mmu := write8 m.mmu a v }

def mread16 (m : JsMachine) (a : Nat) : Nat := mread8 m a ||| (mread8 m (a + 1)) <<< 8

def mwrite16 (m : JsMachine) (a v : Nat) : JsMachine :=
  mwrite8 (mwrite8 m a (v &&& 0xff)) (a + 1) ((v >>> 8) &&& 0xff)

def push16 (m : JsMachine) (v : Nat) : JsMachine :=
  let m1 := { m with cpu := { m.cpu with SP := jsAnd16 ((m.cpu.SP : Int) - 2) } }
  mwrite16 m1 m1.cpu.SP v

def pop16 (m : JsMachine) : Nat × JsMachine :=
  (mread16 m m.cpu.SP, { m with cpu := { m.cpu with SP := (m.cpu.SP + 2) &&& 0xffff } })

def fetchByte (m : JsMachine) : Nat × JsMachine :=
  (mread8 m m.cpu.PC, { m with cpu := { m.cpu with PC := (m.cpu.PC + 1) &&& 0xffff } })

def fetchWord (m : JsMachine) : Nat × JsMachine :=
  (mread16 m m.cpu.PC, { m with cpu := { m.cpu with PC := (m.cpu.PC + 2) &&& 0xffff } })

def getBC (m : JsMachine) : Nat := (m.cpu.regs.B <<< 8) ||| m.cpu.regs.C

def setBC (m : JsMachine) (v : Nat) : JsMachine :=
  { m with cpu := { m.cpu with regs :=
      { m.cpu.regs with B := (v >>> 8) &&& 0xff, C := v &&& 0xff } } }

def getHL (m : JsMachine) : Nat := (m.cpu.regs.H <<< 8) ||| m.cpu.regs.L

def setHL (m : JsMachine) (v : Nat) : JsMachine :=
  { m with cpu := { m.cpu with regs :=
      { m.cpu.regs with H := (v >>> 8) &&& 0xff, L := v &&& 0xff } } }

def setPC (m : JsMachine) (v : Nat) : JsMachine := { m with cpu := { m.cpu with PC := v } }

/-- The 8-bit mask of JavaScript applied to possibly negative values. -/
def jsAnd8 (x : Int) : Nat := (x % 256).toNat

/-- inc8 of cpu.js. -/
def inc8JS (f v : Nat) : Nat × Nat :=
  let result := (v + 1) &&& 0xff
  let f1 := setFlag f 0x80 (result = 0)
  let f2 := setFlag f1 0x40 false
  let f3 := setFlag f2 0x20 (v &&& 0x0f = 0x0f)
  (result, f3)

/-- dec8 of cpu.js. -/
def dec8JS (f v : Nat) : Nat × Nat :=
  let result := jsAnd8 ((v : Int) - 1)
  let f1 := setFlag f 0x80 (result = 0)
  let f2 := setFlag f1 0x40 true
  let f3 := setFlag f2 0x20 (v &&& 0x0f = 0)
  (result, f3)

/-- add16 of cpu.js (Z untouched). -/
def add16JS (f a b : Nat) : Nat × Nat :=
  let result := (a + b) &&& 0xffff
  let f1 := setFlag f 0x40 false
  let f2 := setFlag f1 0x20 ((a &&& 0x0fff) + (b &&& 0x0fff) > 0x0fff)
  let f3 := setFlag f2 0x10 (a + b > 0xffff)
  (result, f3)

/-- Instruction table of cpu.js.  Only the opcodes the source implements are
present; every other primary opcode (and every CB-prefixed opcode) is filled
with a throwing closure in the source, modeled as none / an error result. -/
def instrTable (op : Nat) : Option (JsMachine → Except String (Nat × JsMachine)) :=
  match op with
  | 0x00 => some fun m => .ok (4, m)
  | 0x01 => some fun m =>
      let r := fetchWord m
      .ok (12, setBC r.2 r.1)
  | 0x02 => some fun m => .ok (8, mwrite8 m (getBC m) m.cpu.regs.A)
  | 0x03 => some fun m => .ok (8, setBC m ((getBC m + 1) &&& 0xffff))
  | 0x04 => some fun m =>
      let r := inc8JS m.cpu.regs.F m.cpu.regs.B
      .ok (4, { m with cpu := { m.cpu with regs := { m.cpu.regs with F := r.2, B := r.1 } } })
  | 0x05 => some fun m =>
      let r := dec8JS m.cpu.regs.F m.cpu.regs.B
      .ok (4, { m with cpu := { m.cpu with regs := { m.cpu.regs with F := r.2, B := r.1 } } })
  | 0x06 => some fun m =>
      let r := fetchByte m
      .ok (8, { r.2 with cpu := { r.2.cpu with regs := { r.2.cpu.regs with B := r.1 } } })
  | 0x07 => some fun m =>
      let carry := m.cpu.regs.A &&& 0x80 ≠ 0
      let a1 := ((m.cpu.regs.A <<< 1) ||| (if carry then 1 else 0)) &&& 0xff
      let f1 := setFlag m.cpu.regs.F 0x80 false
      let f2 := setFlag f1 0x40 false
      let f3 := setFlag f2 0x20 false
      let f4 := setFlag f3 0x10 carry
      .ok (4, { m with cpu := { m.cpu with regs := { m.cpu.regs with A := a1, F := f4 } } })
  | 0x08 => some fun m =>
      let r := fetchWord m
      .ok (20, mwrite16 r.2 r.1 r.2.cpu.SP)
  | 0x09 => some fun m =>
      let r := add16JS m.cpu.regs.F (getHL m) (getBC m)
      .ok (8, setHL { m with cpu := { m.cpu with regs := { m.cpu.regs with F := r.2 } } } r.1)
  | 0x0a => some fun m =>
      .ok (8, { m with cpu := { m.cpu with regs :=
        { m.cpu.regs with A := mread8 m (getBC m) } } })
  | 0x0b => some fun m => .ok (8, setBC m (jsAnd16 ((getBC m : Int) - 1)))
  | 0x0c => some fun m =>
      let r := inc8JS m.cpu.regs.F m.cpu.regs.C
      .ok (4, { m with cpu := { m.cpu with regs := { m.cpu.regs with F := r.2, C := r.1 } } })
  | 0x0d => some fun m =>
      let r := dec8JS m.cpu.regs.F m.cpu.regs.C
      .ok (4, { m with cpu := { m.cpu with regs := { m.cpu.regs with F := r.2, C := r.1 } } })
  | 0x0e => some fun m =>
      let r := fetchByte m
      .ok (8, { r.2 with cpu := { r.2.cpu with regs := { r.2.cpu.regs with C := r.1 } } })
  | 0x0f => some fun m =>
      let carry := m.cpu.regs.A &&& 0x01 ≠ 0
      let a1 := ((m.cpu.regs.A >>> 1) ||| (if carry then 0x80 else 0)) &&& 0xff
      let f1 := setFlag m.cpu.regs.F 0x80 false
      let f2 := setFlag f1 0x40 false
      let f3 := setFlag f2 0x20 false
      let f4 := setFlag f3 0x10 carry
      .ok (4, { m with cpu := { m.cpu with regs := { m.cpu.regs with A := a1, F := f4 } } })
  | 0xc3 => some fun m =>
      let r := fetchWord m
      .ok (16, setPC r.2 r.1)
  | 0xcd => some fun m =>
      let r := fetchWord m
      let m2 := push16 r.2 r.2.cpu.PC
      .ok (24, setPC m2 r.1)
  | 0xc9 => some fun m =>
      let r := pop16 m
      .ok (16, setPC r.2 r.1)
  | 0x76 => some fun m => .ok (4, { m with cpu := { m.cpu with halted := true } })
  | 0xf3 => some fun m => .ok (4, { m with cpu := { m.cpu with IME := false } })
  | 0xfb => some fun m => .ok (4, { m with cpu := { m.cpu with IME := true } })
  | 0xcb => some fun _ => .error ("unimplemented CB opcode")
  | _ => none

/-- One served interrupt of handleInterrupts: clear IF bit i, push PC, jump to
the vector 0x40 + i * 0x08. -/
def serveInterrupt (m : JsMachine) (i : Nat) : JsMachine :=
  let m1 := setIF m (mmuIF m - (mmuIF m &&& (1 <<< i)))
  let m2 := push16 m1 m1.cpu.PC
  { m2 with cpu := { m2.cpu with PC := 0x40 + i * 0x08 } }

/-- handleInterrupts of cpu.js: IME and halted are cleared first, then the
priority loop over bits 0..4 (unrolled here) serves the first pending bit of
IE AND IF and breaks; when no bit below 5 is set, nothing else happens. -/
def handleInterrupts (m : JsMachine) : JsMachine :=
  let ints := mmuIE m &&& mmuIF m
  let m1 := { m with cpu := { m.cpu with IME := false, halted := false } }
  if ints &&& 0x01 ≠ 0 then serveInterrupt m1 0
  else if ints &&& 0x02 ≠ 0 then serveInterrupt m1 1
  else if ints &&& 0x04 ≠ 0 then serveInterrupt m1 2
  else if ints &&& 0x08 ≠ 0 then serveInterrupt m1 3
  else if ints &&& 0x10 ≠ 0 then serveInterrupt m1 4
  else m1

/-- step of cpu.js: stopped check, interrupt dispatch (20 cycles), halt
handling (with the HALT-bug PC step-back), then fetch and execute; unknown or
unimplemented opcodes throw. -/
def step (m : JsMachine) : Except String (Nat × JsMachine) :=
  if m.cpu.stopped = true then .ok (4, m)
  else if m.cpu.IME = true ∧ (mmuIE m &&& mmuIF m) ≠ 0 then
    .ok (20, handleInterrupts m)
  else if m.cpu.halted = true then
    let m1 :=
      if (mmuIE m &&& mmuIF m) ≠ 0 then
        let m2 := { m with cpu := { m.cpu with halted := false } }
        if m.cpu.IME = false then
          { m2 with cpu := { m2.cpu with PC := jsAnd16 ((m2.cpu.PC : Int) - 1) } }
        else m2
      else m
    .ok (4, m1)
  else
    let ob := fetchByte m
    match instrTable ob.1 with
    | none => .error ("unknown opcode")
    | some f =>
      match f ob.2 with
      | .error e => .error e
      | .ok r =>
        .ok (r.1, { r.2 with cpu := { r.2.cpu with
            cycles := r.2.cpu.cycles + r.1,
            totalCycles := r.2.cpu.totalCycles + r.1 } })

/-- Effect the claim attributes to interrupt dispatch for pending bit i: IME and
halted cleared, IF bit i cleared through the byte store of the bus, PC pushed
to the stack through the bus, PC set to the vector; registers and cycle
counters untouched.  Built from the embedded bus operations for comparison
with what step actually does. -/
def specDispatch (m : JsMachine) (i : Nat) : JsMachine :=
  let ifv := mmuIF m
  let sp1 := jsAnd16 ((m.cpu.SP : Int) - 2)
  let m1 : JsMachine :=
    { cpu := { m.cpu with IME := false, halted := false, SP := sp1 },
      mmu := { m.mmu with io := upd m.mmu.io 0x0f ((ifv - (ifv &&& (1 <<< i))) &&& 0xff) } }
  let m2 := mwrite16 m1 sp1 m.cpu.PC
  { m2 with cpu := { m2.cpu with PC := 0x40 + i * 0x08 } }

theorem and_small_mod (x k : Nat) (hk : k < 32) : x &&& k = (x % 32) &&& k := by
  apply Nat.eq_of_testBit_eq
  intro i
  simp only [Nat.testBit_and]
  rcases Nat.lt_or_ge i 5 with hi | hi
  · have hmod : (x % 32).testBit i = x.testBit i := by
      have h32 : (32 : Nat) = 2 ^ 5 := by norm_num
      rw [h32, Nat.testBit_mod_two_pow]
      simp [hi]
    rw [hmod]
  · have hk2 : k.testBit i = false := by
      apply Nat.testBit_lt_two_pow
      calc k < 32 := hk
        _ = 2 ^ 5 := by norm_num
        _ ≤ 2 ^ i := Nat.pow_le_pow_right (by norm_num) hi
    simp [hk2]

theorem low_bit_cases (x : Nat) (h : x &&& 0x1f ≠ 0) :
    x &&& 0x01 ≠ 0 ∨ x &&& 0x02 ≠ 0 ∨ x &&& 0x04 ≠ 0 ∨
    x &&& 0x08 ≠ 0 ∨ x &&& 0x10 ≠ 0 := by
  have hgen : ∀ r, r < 32 → r ≠ 0 →
      (r &&& 0x01 ≠ 0 ∨ r &&& 0x02 ≠ 0 ∨ r &&& 0x04 ≠ 0 ∨
       r &&& 0x08 ≠ 0 ∨ r &&& 0x10 ≠ 0) := by decide
  have h31 : x &&& 0x1f = x % 32 := by
    have hh := Nat.and_pow_two_sub_one_eq_mod x 5
    norm_num at hh
    exact hh
  have hres := hgen (x % 32) (Nat.mod_lt _ (by norm_num)) (by rw [← h31]; exact h)
  rcases hres with hb | hb | hb | hb | hb
  · exact Or.inl (by rw [and_small_mod x 0x01 (by norm_num)]; exact hb)
  · exact Or.inr (Or.inl (by rw [and_small_mod x 0x02 (by norm_num)]; exact hb))
  · exact Or.inr (Or.inr (Or.inl (by rw [and_small_mod x 0x04 (by norm_num)]; exact hb)))
  · exact Or.inr (Or.inr (Or.inr (Or.inl
      (by rw [and_small_mod x 0x08 (by norm_num)]; exact hb))))
  · exact Or.inr (Or.inr (Or.inr (Or.inr
      (by rw [and_small_mod x 0x10 (by norm_num)]; exact hb))))

theorem pend_and (x k : Nat) (hk : (0x1f : Nat) &&& k = k) :
    (x &&& 0x1f) &&& k = x &&& k := by
  rw [Nat.land_assoc, hk]

/-- C4: at the start of a CPU step with IME set and a pending bit among bits
0-4 of IE AND IF, the step returns 20 cycles and the dispatched state: IME and
halted cleared, exactly the lowest-set pending bit cleared from IF, the old PC
pushed through the bus at the decremented SP, PC set to the vector
0x40 + 8 * i; the 8-bit registers (including F) and the cycle counters are
unchanged. -/
theorem C4_interrupt_dispatch (m : JsMachine)
    (h1 : m.cpu.stopped = false)
    (h2 : m.cpu.IME = true)
    (h3 : (mmuIE m &&& mmuIF m) &&& 0x1f ≠ 0) :
    ∃ i, i < 5 ∧
      ((mmuIE m &&& mmuIF m) &&& 0x1f) &&& (2 ^ i) ≠ 0 ∧
      (∀ j, j < i → ((mmuIE m &&& mmuIF m) &&& 0x1f) &&& (2 ^ j) = 0) ∧
      step m = .ok (20, specDispatch m i) ∧
      (specDispatch m i).cpu.regs = m.cpu.regs ∧
      (specDispatch m i).cpu.PC = 0x40 + i * 0x08 ∧
      (specDispatch m i).cpu.SP = jsAnd16 ((m.cpu.SP : Int) - 2) ∧
      (specDispatch m i).cpu.IME = false ∧
      (specDispatch m i).cpu.halted = false ∧
      (specDispatch m i).cpu.cycles = m.cpu.cycles ∧
      (specDispatch m i).cpu.totalCycles = m.cpu.totalCycles := by
  have hne : (mmuIE m &&& mmuIF m) ≠ 0 := by
    intro h0
    rw [h0] at h3
    exact h3 (by decide)
  have hstop : ¬ (m.cpu.stopped = true) := by
    rw [h1]
    exact Bool.false_ne_true
  have hstep : step m = .ok (20, handleInterrupts m) := by
    unfold step
    rw [if_neg hstop, if_pos ⟨h2, hne⟩]
  by_cases b0 : (mmuIE m &&& mmuIF m) &&& 0x01 ≠ 0
  · refine ⟨0, by norm_num, ?_, ?_, ?_, rfl, rfl, rfl, rfl, rfl, rfl, rfl⟩
    · rw [pow_zero, pend_and _ _ (by decide)]
      exact b0
    · intro j hj
      exact absurd hj (Nat.not_lt_zero j)
    · rw [hstep]
      have hh : handleInterrupts m =
          serveInterrupt { m with cpu := { m.cpu with IME := false, halted := false } } 0 := by
        simp only [handleInterrupts]
        rw [if_pos b0]
      rw [hh]
      rfl
  · have e0 := not_ne_iff.mp b0
    by_cases b1 : (mmuIE m &&& mmuIF m) &&& 0x02 ≠ 0
    · refine ⟨1, by norm_num, ?_, ?_, ?_, rfl, rfl, rfl, rfl, rfl, rfl, rfl⟩
      · rw [pow_one, pend_and _ _ (by decide)]
        exact b1
      · intro j hj
        interval_cases j
        rw [pow_zero, pend_and _ _ (by decide)]
        exact e0
      · rw [hstep]
        have hh : handleInterrupts m =
            serveInterrupt { m with cpu := { m.cpu with IME := false, halted := false } } 1 := by
          simp only [handleInterrupts]
          rw [if_neg b0, if_pos b1]
        rw [hh]
        rfl
    · have e1 := not_ne_iff.mp b1
      by_cases b2 : (mmuIE m &&& mmuIF m) &&& 0x04 ≠ 0
      · refine ⟨2, by norm_num, ?_, ?_, ?_, rfl, rfl, rfl, rfl, rfl, rfl, rfl⟩
        · rw [show (2 : Nat) ^ 2 = 0x04 by norm_num, pend_and _ _ (by decide)]
          exact b2
        · intro j hj
          interval_cases j
          · rw [pow_zero, pend_and _ _ (by decide)]
            exact e0
          · rw [pow_one, pend_and _ _ (by decide)]
            exact e1
        · rw [hstep]
          have hh : handleInterrupts m =
              serveInterrupt { m with cpu := { m.cpu with IME := false, halted := false } } 2 := by
            simp only [handleInterrupts]
            rw [if_neg b0, if_neg b1, if_pos b2]
          rw [hh]
          rfl
      · have e2 := not_ne_iff.mp b2
        by_cases b3 : (mmuIE m &&& mmuIF m) &&& 0x08 ≠ 0
        · refine ⟨3, by norm_num, ?_, ?_, ?_, rfl, rfl, rfl, rfl, rfl, rfl, rfl⟩
          · rw [show (2 : Nat) ^ 3 = 0x08 by norm_num, pend_and _ _ (by decide)]
            exact b3
          · intro j hj
            interval_cases j
            · rw [pow_zero, pend_and _ _ (by decide)]
              exact e0
            · rw [pow_one, pend_and _ _ (by decide)]
              exact e1
            · rw [show (2 : Nat) ^ 2 = 0x04 by norm_num, pend_and _ _ (by decide)]
              exact e2
          · rw [hstep]
            have hh : handleInterrupts m =
                serveInterrupt { m with cpu := { m.cpu with IME := false, halted := false } } 3 := by
              simp only [handleInterrupts]
              rw [if_neg b0, if_neg b1, if_neg b2, if_pos b3]
            rw [hh]
            rfl
        · have e3 := not_ne_iff.mp b3
          by_cases b4 : (mmuIE m &&& mmuIF m) &&& 0x10 ≠ 0
          · refine ⟨4, by norm_num, ?_, ?_, ?_, rfl, rfl, rfl, rfl, rfl, rfl, rfl⟩
            · rw [show (2 : Nat) ^ 4 = 0x10 by norm_num, pend_and _ _ (by decide)]
              exact b4
            · intro j hj
              interval_cases j
              · rw [pow_zero, pend_and _ _ (by decide)]
                exact e0
              · rw [pow_one, pend_and _ _ (by decide)]
                exact e1
              · rw [show (2 : Nat) ^ 2 = 0x04 by norm_num, pend_and _ _ (by decide)]
                exact e2
              · rw [show (2 : Nat) ^ 3 = 0x08 by norm_num, pend_and _ _ (by decide)]
                exact e3
            · rw [hstep]
              have hh : handleInterrupts m =
                  serveInterrupt { m with cpu := { m.cpu with IME := false, halted := false } } 4 := by
                simp only [handleInterrupts]
                rw [if_neg b0, if_neg b1, if_neg b2, if_neg b3, if_pos b4]
              rw [hh]
              rfl
          · exfalso
            have e4 := not_ne_iff.mp b4
            rcases low_bit_cases (mmuIE m &&& mmuIF m) h3 with hb | hb | hb | hb | hb
            · exact hb e0
            · exact hb e1
            · exact hb e2
            · exact hb e3
            · exact hb e4

/-- Machine about to dispatch the timer interrupt: IME set, IE = 0x1F, IF = 0x04. -/
def dispatchMachine : JsMachine :=
  { cpu := { regs := ⟨0x01, 0xb0, 0x00, 0x13, 0x00, 0xd8, 0x01, 0x4d⟩,
             SP := 0xfffe, PC := 0x1234, IME := true, halted := false,
             stopped := false, cycles := 0, totalCycles := 0 },
    mmu := { bios := fun _ => 0, biosEnabled := false,
             vram := fun _ => 0, wram := fun _ => 0, oam := fun _ => 0, hram := fun _ => 0,
             io := fun a => if a = 0x7f then 0x1f else if a = 0x0f then 0x04 else 0,
             cart := none,
             joypad := ⟨false, false, false, false, false, false, false, false⟩ } }

/-- Witness for C4: the dispatch theorem applied to a machine with IE = 0x1F and
IF = 0x04 pending (the timer interrupt, vector 0x50). -/
theorem C4_interrupt_dispatch_witness :
    dispatchMachine.cpu.stopped = false ∧
    dispatchMachine.cpu.IME = true ∧
    (mmuIE dispatchMachine &&& mmuIF dispatchMachine) &&& 0x1f ≠ 0 ∧
    (∃ i, i < 5 ∧
      ((mmuIE dispatchMachine &&& mmuIF dispatchMachine) &&& 0x1f) &&& (2 ^ i) ≠ 0 ∧
      (∀ j, j < i →
        ((mmuIE dispatchMachine &&& mmuIF dispatchMachine) &&& 0x1f) &&& (2 ^ j) = 0) ∧
      step dispatchMachine = .ok (20, specDispatch dispatchMachine i) ∧
      (specDispatch dispatchMachine i).cpu.regs = dispatchMachine.cpu.regs ∧
      (specDispatch dispatchMachine i).cpu.PC = 0x40 + i * 0x08 ∧
      (specDispatch dispatchMachine i).cpu.SP =
        jsAnd16 ((dispatchMachine.cpu.SP : Int) - 2) ∧
      (specDispatch dispatchMachine i).cpu.IME = false ∧
      (specDispatch dispatchMachine i).cpu.halted = false ∧
      (specDispatch dispatchMachine i).cpu.cycles = dispatchMachine.cpu.cycles ∧
      (specDispatch dispatchMachine i).cpu.totalCycles =
        dispatchMachine.cpu.totalCycles) :=
  ⟨rfl, rfl, by decide, C4_interrupt_dispatch dispatchMachine rfl rfl (by decide)⟩

/- ===== TypeScript emulator: rom.ts (header checksum) and
   plain-JS emulator: cartridge.js loadROM (size check) ===== -/

/-- validate of rom.ts: hash accumulates hash - data[i] - 1 over the header
range 0x134..0x14C (a JavaScript signed integer, modeled as Int); hash AND 0xFF
on the 32-bit value equals the non-negative residue mod 256. -/
def validate (data : List Nat) : Bool :=
  let hash : Int := (List.range' 0x134 0x19).foldl
    (fun h i => h - (data.getD i 0 : Int) - 1) 0
  (hash % 256).toNat == data.getD 0x14d 0

/-- loadROM of the plain-JS Cartridge: rejects buffers under 32 KiB and accepts
everything else; the header checksum byte is parsed into a field but never
compared (parseHeader, initializeRAM, setupMBC and loadSaveData cannot fail). -/
def loadROM (rom : List Nat) : Except String Unit :=
  if rom.length < 0x8000 then .error ("ROM too small (minimum 32KB required)")
  else .ok ()

/-- Checksum equation of the specification: the 8-bit value of the sum over
i in [0x134, 0x14C] of (-rom[i] - 1) must equal rom[0x14D]. -/
def specChecksum (rom : List Nat) : Bool :=
  ((((List.range' 0x134 0x19).foldl
      (fun (s : Int) i => s + (-(rom.getD i 0 : Int) - 1)) 0) % 256).toNat ==
    rom.getD 0x14d 0)

/-- The all-zero 32 KiB ROM image (header checksum byte 0, which is wrong). -/
def zeroRom : List Nat := List.replicate 0x8000 0

/-- The seed-test ROM: all zero except the checksum byte 0x14D = 0xE7. -/
def goodRom : List Nat := (List.replicate 0x8000 0).set 0x14d 0xe7

/-- C3 counterexample: the all-zero 32 KiB ROM fails the header checksum
equation, yet the plain-JS Cartridge.loadROM accepts it — cartridge loading
does not reject every ROM whose checksum equality fails. -/
theorem C3_counterexample_js_loader_skips_checksum :
    loadROM zeroRom = .ok () ∧ validate zeroRom = false := by
  constructor
  · have hlen : zeroRom.length = 0x8000 := by
      rw [zeroRom, List.length_replicate]
    unfold loadROM
    rw [hlen]
    norm_num
  · decide

/-- C3 amended: the TypeScript ROM reader path checks exactly the checksum
equation of the spec (validate agrees with it on every image, accepts the seed
ROM and rejects a corrupted header), while the plain-JS Cartridge.loadROM
accepts exactly the images of at least 32 KiB, never checking the checksum. -/
theorem C3_amended_checksum_validation :
    (∀ rom : List Nat, validate rom = specChecksum rom) ∧
    validate goodRom = true ∧
    loadROM goodRom = .ok () ∧
    validate (goodRom.set 0x140 0x01) = false ∧
    (∀ rom : List Nat, loadROM rom = .ok () ↔ 0x8000 ≤ rom.length) := by
  refine ⟨?_, by decide, ?_, by decide, ?_⟩
  · intro rom
    unfold validate specChecksum
    have hf : (List.range' 0x134 0x19).foldl
        (fun (h : Int) i => h - (rom.getD i 0 : Int) - 1) 0 =
        (List.range' 0x134 0x19).foldl
        (fun (s : Int) i => s + (-(rom.getD i 0 : Int) - 1)) 0 := by
      apply List.foldl_ext
      intro a b _
      ring
    rw [hf]
  · have hlen : goodRom.length = 0x8000 := by
      rw [goodRom, List.length_set, List.length_replicate]
    unfold loadROM
    rw [hlen]
    norm_num
  · intro rom
    unfold loadROM
    split
    · rename_i hlt
      constructor
      · intro he
        exact absurd he (by simp)
      · intro hge
        omega
    · rename_i hge
      simp
      omega

/- ===== Plain-JS emulator: gameboy.js saveState and loadState ===== -/

/-- Fields captured by cpu.getState (all of them are serialized). -/
structure SaveCPU where
  regs : Regs
  PC : Nat
  SP : Nat
  IME : Bool
  halted : Bool
  stopped : Bool
  cycles : Nat
  totalCycles : Nat

/-- Fields captured by ppu.getState. -/
structure SavePPU where
  cycles : Nat
  currentLine : Nat
  mode : Nat
  lcdEnabled : Bool
  spriteCount : Nat

/-- Bus arrays captured by saveState. -/
structure SaveMMU where
  vram : Nat → Nat
  wram : Nat → Nat
  oam : Nat → Nat
  hram : Nat → Nat
  io : Nat → Nat

/-- Cartridge fields captured by saveState. -/
structure SaveCart where
  ram : Option (Nat → Nat)
  romBank : Nat
  ramBank : Nat
  ramEnabled : Bool
  bankingMode : Nat

/-- The serialized snapshot assembled by gameboy.js saveState. -/
structure SaveState where
  cpu : SaveCPU
  ppu : SavePPU
  mmu : SaveMMU
  cartridge : SaveCart

/-- Full emulator state for the save/load claim: everything saveState reads and
loadState writes, together with the state that is NOT serialized (the CPU total
cycle counter restored never, the PPU frame-complete flag and framebuffer, the
bios flag, and the bank registers held on the MBC object itself, distinct from
the mirror fields on the Cartridge object). -/
structure GBState where
  cpuRegs : Regs
  cpuPC : Nat
  cpuSP : Nat
  cpuIME : Bool
  cpuHalted : Bool
  cpuStopped : Bool
  cpuCycles : Nat
  cpuTotalCycles : Nat
  ppuCycles : Nat
  ppuLine : Nat
  ppuMode : Nat
  ppuSpriteCount : Nat
  ppuFrameComplete : Bool
  ppuFrameBuffer : Nat → Nat
  vram : Nat → Nat
  wram : Nat → Nat
  oam : Nat → Nat
  hram : Nat → Nat
  io : Nat → Nat
  biosEnabled : Bool
  cartRam : Option (Nat → Nat)
  cartRomBank : Nat
  cartRamBank : Nat
  cartRamEnabled : Bool
  cartBankingMode : Nat
  mbcRomBank : Nat
  mbcRamBank : Nat
  mbcRamEnabled : Bool
  mbcBankingMode : Nat

/-- saveState of gameboy.js: copies the listed fields into a fresh snapshot. -/
def saveStateF (s : GBState) : SaveState :=
  { cpu := { regs := s.cpuRegs, PC := s.cpuPC, SP := s.cpuSP, IME := s.cpuIME,
             halted := s.cpuHalted, stopped := s.cpuStopped,
             cycles := s.cpuCycles, totalCycles := s.cpuTotalCycles },
    ppu := { cycles := s.ppuCycles, currentLine := s.ppuLine, mode := s.ppuMode,
             lcdEnabled := (s.io 0x40 &&& 0x80) != 0, spriteCount := s.ppuSpriteCount },
    mmu := { vram := s.vram, wram := s.wram, oam := s.oam, hram := s.hram, io := s.io },
    cartridge := { ram := s.cartRam, romBank := s.cartRomBank, ramBank := s.cartRamBank,
                   ramEnabled := s.cartRamEnabled, bankingMode := s.cartBankingMode } }

/-- loadState of gameboy.js: restores the CPU fields except totalCycles, the
three PPU scalars, the five bus arrays, and the Cartridge mirror fields; the
external RAM is overwritten only when both the snapshot and the current
cartridge carry RAM.  Nothing else is touched. -/
def loadStateF (b : SaveState) (s : GBState) : GBState :=
  { s with
    cpuRegs := b.cpu.regs,
    cpuPC := b.cpu.PC,
    cpuSP := b.cpu.SP,
    cpuIME := b.cpu.IME,
    cpuHalted := b.cpu.halted,
    cpuStopped := b.cpu.stopped,
    cpuCycles := b.cpu.cycles,
    ppuCycles := b.ppu.cycles,
    ppuLine := b.ppu.currentLine,
    ppuMode := b.ppu.mode,
    vram := b.mmu.vram,
    wram := b.mmu.wram,
    oam := b.mmu.oam,
    hram := b.mmu.hram,
    io := b.mmu.io,
    cartRam :=
      match b.cartridge.ram, s.cartRam with
      | some r, some _ => some r
      | _, _ => s.cartRam,
    cartRomBank := b.cartridge.romBank,
    cartRamBank := b.cartridge.ramBank,
    cartRamEnabled := b.cartridge.ramEnabled,
    cartBankingMode := b.cartridge.bankingMode }

/-- C7: loading the snapshot just saved restores the emulator state exactly, so
loadState(saveState()) is a no-op on the whole state and therefore on all
observable behavior of any number of subsequent frames. -/
theorem C7_save_load_roundtrip (s : GBState) : loadStateF (saveStateF s) s = s := by
  cases hs : s.cartRam <;> simp [loadStateF, saveStateF, hs] <;> rw [← hs]

end GBV
